import Mathlib

/-!
Verification development for the cuprum editor repository.

The repository contains two generations of the same program:
the workspace crates (crates/editor, crates/builtin, crates/api,
crates/plugin-manager, crates/utils) and a newer root crate (src/lib.rs,
src/buffer/content.rs, src/buffer/mod.rs).  Both are embedded here,
in namespaces: namespace editor for the crates/editor generation,
namespace core for the newer rope-backed buffer, namespace cuprum for the
newer dispatcher of src/lib.rs, namespace builtin for crates/builtin,
and namespace plugin for crates/plugin-manager.

Text is modelled as List Char (one Unicode scalar value per element);
a lines buffer is List (List Char).  usize values are modelled as Nat;
where the source can underflow a usize subtraction the model uses an
explicit checked subtraction returning Option (none = overflow panic of a
debug build; release builds panic on the subsequent out-of-range index,
so none marks a panic either way).
-/

/-! ## Vector types (utils/src/vec2.rs)

The file crates/utils/src/lib.rs declares pub mod vec2, but vec2.rs itself
is absent from the snapshot.  Modelled from the spec: UVec2 is a
(column x, line y) pair of usize, IVec2 a pair of isize, checked_add is
component-wise checked usize plus isize arithmetic, and the order used to
normalize a visual selection compares (line, column) lexicographically
(spec section 4.2). -/

/-- Largest usize value (64-bit target). -/
def USIZE_MAX : Nat := 2 ^ 64 - 1

/-- Unsigned 2-vector: x is the column, y is the line. -/
structure UVec2 where
  x : Nat
  y : Nat
deriving DecidableEq, Repr

/-- Signed 2-vector used as a cursor offset. -/
structure IVec2 where
  x : Int
  y : Int
deriving DecidableEq, Repr

/-- Modelled from the spec: checked usize + isize addition of one component
(vec2.rs is missing).  Returns none on underflow below 0 or overflow past
USIZE_MAX, as usize::checked_add_signed does. -/
def usizeCheckedAddSigned (u : Nat) (i : Int) : Option Nat :=
  if 0 ≤ (u : Int) + i ∧ (u : Int) + i ≤ (USIZE_MAX : Int) then
    some ((u : Int) + i).toNat
  else
    none

/-- Modelled from the spec: component-wise checked addition of an IVec2
offset to a UVec2; fails if either component fails. -/
def UVec2.checked_add (v : UVec2) (o : IVec2) : Option UVec2 :=
  match usizeCheckedAddSigned v.x o.x, usizeCheckedAddSigned v.y o.y with
  | some x, some y => some ⟨x, y⟩
  | _, _ => none

/-- Modelled from the spec: the order normalizing a visual selection
compares (line, column) lexicographically (spec section 4.2). -/
def UVec2.ltb (a b : UVec2) : Bool :=
  a.y < b.y ∨ (a.y = b.y ∧ a.x < b.x)

/-- IVec2::left: one column to the left. -/
def IVec2.left : IVec2 := ⟨-1, 0⟩

/-- IVec2::right: one column to the right. -/
def IVec2.right : IVec2 := ⟨1, 0⟩

/-- IVec2::up: one line up. -/
def IVec2.up : IVec2 := ⟨0, -1⟩

/-- IVec2::down: one line down. -/
def IVec2.down : IVec2 := ⟨0, 1⟩

/-- Debug-build usize subtraction: none models the subtract-with-overflow
panic (a release build would wrap and panic on the later out-of-range
index instead, so none marks a panic in both profiles). -/
def usizeCheckedSub (a b : Nat) : Option Nat :=
  if b ≤ a then some (a - b) else none

/-- Mode (crates/api/src/lib.rs): Normal, Visual, Insert(is_append),
Command. -/
inductive Mode where
  | Normal : Mode
  | Visual : Mode
  | Insert : Bool → Mode
  | Command : Mode
deriving DecidableEq, Repr

namespace content

/-!
## Rope-backed buffer content (src/buffer/content.rs)

BufferContent delegates to the external ropey crate.  The rope is
modelled as the flat character sequence it stores; the ropey line
primitives are modelled after their documented semantics:
len_lines is the newline count plus one, line_to_char of line l is the
character index at which line l starts, char_to_line of index i is the
line holding character i (a newline character belongs to the line it
terminates), and a line includes its terminating newline character.
-/

/-- ropey Rope::char_to_line: the line of character index i, counted as
the number of newline characters strictly before i. -/
def charToLine : List Char → Nat → Nat
  | [], _ => 0
  | _ :: _, 0 => 0
  | c :: s, i + 1 => if c = '\n' then charToLine s i + 1 else charToLine s i

/-- ropey Rope::line_to_char: the character index at which line l starts. -/
def lineToChar : List Char → Nat → Nat
  | _, 0 => 0
  | [], _ + 1 => 0
  | c :: s, l + 1 =>
    if c = '\n' then lineToChar s l + 1 else lineToChar s (l + 1) + 1

/-- ropey Rope::len_lines: one more than the number of newlines. -/
def lenLines (s : List Char) : Nat := s.count '\n' + 1

/-- ropey RopeSlice::len_chars of line l: its character count, including
the terminating newline when present. -/
def lineLenChars : List Char → Nat → Nat
  | [], _ => 0
  | c :: s, 0 => if c = '\n' then 1 else lineLenChars s 0 + 1
  | c :: s, l + 1 => if c = '\n' then lineLenChars s l else lineLenChars s (l + 1)

/-- BufferContent (src/buffer/content.rs): a rope holding the document. -/
structure BufferContent where
  buf : List Char
deriving DecidableEq, Repr

/-- BufferContent::new. -/
def BufferContent.new : BufferContent := ⟨[]⟩

/-- BufferContent::vec2_to_index: line_to_char(y) + x. -/
def BufferContent.vec2_to_index (b : BufferContent) (v : UVec2) : Nat :=
  lineToChar b.buf v.y + v.x

/-- BufferContent::index_to_vec2: line = char_to_line(index),
x = index - line_to_char(line). -/
def BufferContent.index_to_vec2 (b : BufferContent) (index : Nat) : UVec2 :=
  let line := charToLine b.buf index
  let line_start := lineToChar b.buf line
  ⟨index - line_start, line⟩

/-- BufferContent::get. -/
def BufferContent.get (b : BufferContent) : List Char := b.buf

/-- BufferContent::get_line_start. -/
def BufferContent.get_line_start (b : BufferContent) (line : Nat) : Nat :=
  lineToChar b.buf line

/-- BufferContent::get_line_count. -/
def BufferContent.get_line_count (b : BufferContent) : Nat := lenLines b.buf

/-- BufferContent::get_line_length. -/
def BufferContent.get_line_length (b : BufferContent) (line : Nat) : Nat :=
  lineLenChars b.buf line

/-- ropey Rope::get_char: the character at a position, none when out of
range. -/
def BufferContent.get_char_opt (b : BufferContent) (position : Nat) :
    Option Char :=
  b.buf.get? position

/-- BufferContent::insert: rope insertion of text at a character index. -/
def BufferContent.insert (b : BufferContent) (position : Nat)
    (text : List Char) : BufferContent :=
  ⟨b.buf.take position ++ text ++ b.buf.drop position⟩

/-- BufferContent::remove: reads the slice start..end, then removes that
range from the rope. -/
def BufferContent.remove (b : BufferContent) (start stop : Nat) :
    Option (List Char) × BufferContent :=
  ((b.buf.drop start).take (stop - start),
    ⟨b.buf.take start ++ b.buf.drop stop⟩)
  |> fun p => (some p.1, p.2)

/-- BufferContent::remove_char (src/buffer/content.rs lines 70-74):
reads the character with get_char, then removes the EMPTY range
position..position from the rope, so the text is left unchanged. -/
def BufferContent.remove_char (b : BufferContent) (position : Nat) :
    Option Char × BufferContent :=
  let ch := b.get_char_opt position
  (ch, ⟨b.buf.take position ++ b.buf.drop position⟩)

end content

namespace core

/-!
## Rope-backed Buffer (src/buffer/mod.rs, the live code of that file)

The edit primitives insert, insert_char, remove and remove_char delegate
straight to BufferContent and never call mark_dirty; mark_dirty exists but
is unused by them (the commented-out older revision in the same file
called mark_dirty in every mutator).
-/

/-- Buffer (src/buffer/mod.rs): backing file association, rope content,
dirty flag.  The file handle is modelled as an Option Unit association. -/
structure Buffer where
  file : Option Unit
  content : content.BufferContent
  dirty : Bool
deriving DecidableEq, Repr

/-- Buffer::default: no file, empty content, not dirty. -/
def Buffer.default : Buffer := ⟨none, content.BufferContent.new, false⟩

/-- Buffer::mark_dirty. -/
def Buffer.mark_dirty (b : Buffer) : Buffer := { b with dirty := true }

/-- Buffer::get_content. -/
def Buffer.get_content (b : Buffer) : List Char := b.content.get

/-- Buffer::insert (src/buffer/mod.rs lines 75-77): delegates to the
content store; does NOT touch the dirty flag. -/
def Buffer.insert (b : Buffer) (position : Nat) (text : List Char) : Buffer :=
  { b with content := b.content.insert position text }

/-- Buffer::insert_char (src/buffer/mod.rs lines 79-81): inserts the
one-character string; does NOT touch the dirty flag. -/
def Buffer.insert_char (b : Buffer) (position : Nat) (ch : Char) : Buffer :=
  { b with content := b.content.insert position [ch] }

/-- Buffer::remove (src/buffer/mod.rs lines 83-85): delegates; does NOT
touch the dirty flag. -/
def Buffer.remove (b : Buffer) (start stop : Nat) :
    Option (List Char) × Buffer :=
  let p := b.content.remove start stop
  (p.1, { b with content := p.2 })

/-- Buffer::remove_char (src/buffer/mod.rs lines 87-89): delegates; does
NOT touch the dirty flag. -/
def Buffer.remove_char (b : Buffer) (position : Nat) :
    Option Char × Buffer :=
  let p := b.content.remove_char position
  (p.1, { b with content := p.2 })

end core

namespace editor

/-!
## Lines-based Buffer (crates/editor/src/buffer/mod.rs)

The document is a vector of lines.  Operations addressed by
(column x, line y) pairs follow crates/editor/src/buffer/mod.rs; the
UVec2-positional variants (get_char_v, insert_char_v, replace_char,
replace_content, remove_char_v, replace_all_lines, split_line_v) follow
the same-shaped methods of the src/buffer/mod.rs revision history (the
only implementations in the repository matching the call signatures used
by the dispatchers).  A line is a List Char; the Rust byte indexing of
String coincides with character indexing on the ASCII inputs of every
concrete example below.  Option-valued mutators return none where the
Rust code would panic on an out-of-range index.
-/

/-- Buffer (crates/editor/src/buffer/mod.rs): backing file association,
lines, dirty flag. -/
structure Buffer where
  file : Option Unit
  content : List (List Char)
  dirty : Bool
deriving DecidableEq, Repr

/-- Buffer::default: one empty line, not dirty. -/
def Buffer.default : Buffer := ⟨none, [[]], false⟩

/-- Buffer::save: writes to the backing file when present and clears the
dirty flag; a no-op without a backing file.  The write itself is an
external collaborator and is modelled as always succeeding. -/
def Buffer.save (b : Buffer) : Buffer :=
  match b.file with
  | some _ => { b with dirty := false }
  | none => b

/-- Buffer::mark_dirty. -/
def Buffer.mark_dirty (b : Buffer) : Buffer := { b with dirty := true }

/-- Buffer::get_line_count. -/
def Buffer.get_line_count (b : Buffer) : Nat := b.content.length

/-- Buffer::get_line_length: character count of line y, none when out of
range. -/
def Buffer.get_line_length (b : Buffer) (y : Nat) : Option Nat :=
  (b.content.get? y).map List.length

/-- Buffer::get_lines. -/
def Buffer.get_lines (b : Buffer) : List (List Char) := b.content

/-- Buffer::get_content: lines joined with newlines. -/
def Buffer.get_content (b : Buffer) : List Char :=
  (b.content.intersperse ['\n']).flatten

/-- Buffer::get_line. -/
def Buffer.get_line (b : Buffer) (y : Nat) : Option (List Char) :=
  b.content.get? y

/-- Buffer::get_char (crates/editor/src/buffer/mod.rs lines 64-66). -/
def Buffer.get_char (b : Buffer) (x y : Nat) : Option Char :=
  (b.content.get? y).bind fun line => line.get? x

/-- Buffer::insert_char (crates/editor/src/buffer/mod.rs lines 68-73):
marks dirty, then inserts into line y when it exists; none models the
String::insert panic when x exceeds the line length. -/
def Buffer.insert_char (b : Buffer) (x y : Nat) (ch : Char) : Option Buffer :=
  let b := b.mark_dirty
  match b.content.get? y with
  | some line =>
    if x ≤ line.length then
      some { b with content := b.content.set y (line.insertIdx x ch) }
    else
      none
  | none => some b

/-- Buffer::remove_char (crates/editor/src/buffer/mod.rs lines 75-84):
marks dirty, removes and returns the character at (x, y) when the line
exists and x is inside it, otherwise returns none (still marked dirty). -/
def Buffer.remove_char (b : Buffer) (x y : Nat) : Option Char × Buffer :=
  let b := b.mark_dirty
  match b.content.get? y with
  | some line =>
    if h : x < line.length then
      (some (line.get ⟨x, h⟩),
        { b with content := b.content.set y (line.eraseIdx x) })
    else
      (none, b)
  | none => (none, b)

/-- Buffer::insert_line (crates/editor/src/buffer/mod.rs lines 86-89):
marks dirty, inserts a line at y; none models the Vec::insert panic when
y exceeds the line count. -/
def Buffer.insert_line (b : Buffer) (y : Nat) (line : List Char) :
    Option Buffer :=
  let b := b.mark_dirty
  if y ≤ b.content.length then
    some { b with content := b.content.insertIdx y line }
  else
    none

/-- Buffer::replace_line (crates/editor/src/buffer/mod.rs lines 91-99):
when line y exists, marks dirty, replaces it and returns the old line. -/
def Buffer.replace_line (b : Buffer) (y : Nat) (line : List Char) :
    Option (List Char) × Buffer :=
  match b.content.get? y with
  | some old_line =>
    (some old_line, { b.mark_dirty with content := b.content.set y line })
  | none => (none, b)

/-- Buffer::remove_line (crates/editor/src/buffer/mod.rs lines 101-108):
when y is in range, marks dirty, removes and returns line y. -/
def Buffer.remove_line (b : Buffer) (y : Nat) :
    Option (List Char) × Buffer :=
  if y < b.get_line_count then
    ((b.content.get? y),
      { b.mark_dirty with content := b.content.eraseIdx y })
  else
    (none, b)

/-- Buffer::split_line (crates/editor/src/buffer/mod.rs lines 110-117):
marks dirty, splits line y at column x into two lines; none models the
indexing panic when y is out of range or x exceeds the line length. -/
def Buffer.split_line (b : Buffer) (x y : Nat) : Option Buffer :=
  let b := b.mark_dirty
  match b.content.get? y with
  | some original =>
    if x ≤ original.length then
      some { b with
        content :=
          (b.content.set y (original.take x)).insertIdx (y + 1)
            (original.drop x) }
    else
      none
  | none => none

/-- Buffer::join_lines (crates/editor/src/buffer/mod.rs lines 119-127):
when line y + 1 exists, marks dirty, appends it to line y and removes it. -/
def Buffer.join_lines (b : Buffer) (y : Nat) : Buffer :=
  if y + 1 < b.get_line_count then
    { b.mark_dirty with
      content :=
        (b.content.set y
          (b.content.getD y [] ++ b.content.getD (y + 1) [])).eraseIdx
          (y + 1) }
  else
    b

/-- Buffer get_char at a UVec2 position (src/buffer/mod.rs revision
history): character pos.x of line pos.y. -/
def Buffer.get_char_v (b : Buffer) (pos : UVec2) : Option Char :=
  b.get_char pos.x pos.y

/-- Buffer insert_char at a UVec2 position (src/buffer/mod.rs revision
history): marks dirty and inserts into line pos.y. -/
def Buffer.insert_char_v (b : Buffer) (pos : UVec2) (ch : Char) :
    Option Buffer :=
  b.insert_char pos.x pos.y ch

/-- Buffer::replace_char (src/buffer/mod.rs revision history): when line
pos.y exists, marks dirty, overwrites the character at pos.x returning
the old one; none models the indexing panic when pos.x is out of range. -/
def Buffer.replace_char (b : Buffer) (pos : UVec2) (ch : Char) :
    Option (Option Char × Buffer) :=
  let b1 := b.mark_dirty
  match b.content.get? pos.y with
  | some line =>
    match line.get? pos.x with
    | some old =>
      some (some old,
        { b1 with content := b1.content.set pos.y (line.set pos.x ch) })
    | none => none
  | none => some (none, b1)

/-- Buffer::replace_content (src/buffer/mod.rs revision history):
replaces the whole document from a newline-separated text, returning the
old joined content. -/
def Buffer.replace_content (b : Buffer) (text : List Char) :
    List Char × Buffer :=
  (b.get_content, { b with content := text.splitOn '\n' })

/-- Buffer::replace_all_lines (src/buffer/mod.rs revision history):
replaces the whole line vector, returning the old one. -/
def Buffer.replace_all_lines (b : Buffer) (lines : List (List Char)) :
    List (List Char) × Buffer :=
  (b.content, { b with content := lines })

/-- Buffer remove_char at a UVec2 position (src/buffer/mod.rs revision
history): marks dirty; removes in-line when pos.x is inside line pos.y,
joins with the next line returning a newline when pos.x equals the line
length, otherwise removes nothing. -/
def Buffer.remove_char_v (b : Buffer) (pos : UVec2) : Option Char × Buffer :=
  let b := b.mark_dirty
  match b.content.get? pos.y with
  | some line =>
    if h : pos.x < line.length then
      (some (line.get ⟨pos.x, h⟩),
        { b with content := b.content.set pos.y (line.eraseIdx pos.x) })
    else if pos.x = line.length then
      (some '\n', b.join_lines pos.y)
    else
      (none, b)
  | none => (none, b)

/-- Buffer split_line at a UVec2 position (src/buffer/mod.rs revision
history). -/
def Buffer.split_line_v (b : Buffer) (pos : UVec2) : Option Buffer :=
  b.split_line pos.x pos.y

end editor

namespace editor

/-!
## Window (crates/editor/src/window/mod.rs)

The source Window shares its Buffer and the global Mode through Arc
handles and only reads them during cursor movement; the model passes the
buffer and mode as explicit read-only arguments.  The visual_start field
belongs to the newest Window revision (src/window.rs, absent from the
snapshot); it is modelled from the spec as the stored optional selection
anchor, and none of the movement operations below touches it.
-/

/-- Window: buffer handle, cursor, scroll offset, viewport position and
size, and (spec-modelled, src/window.rs missing) the visual selection
anchor. -/
structure Window where
  buffer_id : Nat
  cursor : UVec2
  scroll : Nat
  position : UVec2
  size : UVec2
  visual_start : UVec2
deriving DecidableEq, Repr

/-- Window::get_cursor_max_x: the line length in Insert mode, otherwise
the line length minus one saturated at zero
(len.checked_sub(1).unwrap_or(len)); none when the cursor line does not
exist. -/
def Window.get_cursor_max_x (w : Window) (b : Buffer) (m : Mode) :
    Option Nat :=
  (b.get_line_length w.cursor.y).map fun line_len =>
    match m with
    | Mode.Insert _ => line_len
    | _ => if 1 ≤ line_len then line_len - 1 else line_len

/-- Window::get_render_cursor: the stored cursor with its column clamped
to the mode-appropriate max column, computed without mutating the stored
state. -/
def Window.get_render_cursor (w : Window) (b : Buffer) (m : Mode) : UVec2 :=
  match w.get_cursor_max_x b m with
  | some max_x =>
    if max_x < w.cursor.x then ⟨max_x, w.cursor.y⟩ else w.cursor
  | none => w.cursor

/-- Modelled from the spec: Window::get_visual_start returns the stored
selection anchor (src/window.rs is absent from the snapshot). -/
def Window.get_visual_start (w : Window) : UVec2 := w.visual_start

/-- Window::sync_scroll (crates/editor/src/window/mod.rs lines 196-206):
pulls the scroll offset up to the cursor line or down so the cursor line
is the last visible one (or exactly the cursor line when the viewport
height is zero). -/
def Window.sync_scroll (w : Window) : Window :=
  if w.cursor.y < w.scroll then
    { w with scroll := w.cursor.y }
  else if w.scroll + w.size.y ≤ w.cursor.y then
    if 0 < w.size.y then
      { w with scroll := w.cursor.y - w.size.y + 1 }
    else
      { w with scroll := w.cursor.y }
  else
    w

/-- The first half of Window::move_by: when a horizontal delta is
requested and the max column exists, clamp the stored column down to it. -/
def Window.move_by_preclamp (w : Window) (b : Buffer) (m : Mode)
    (offset : IVec2) : Window :=
  match w.get_cursor_max_x b m with
  | some max_x =>
    if offset.x ≠ 0 ∧ max_x < w.cursor.x then
      { w with cursor := ⟨max_x, w.cursor.y⟩ }
    else
      w
  | none => w

/-- Window::move_by (crates/editor/src/window/mod.rs lines 97-120):
pre-clamps the column, then commits cursor + offset and resyncs the
scroll unless the checked addition fails or the resulting line is out of
range. -/
def Window.move_by (w : Window) (b : Buffer) (m : Mode)
    (offset : IVec2) : Window :=
  let w := w.move_by_preclamp b m offset
  match w.cursor.checked_add offset with
  | some pos =>
    if b.get_line_count ≤ pos.y then
      w
    else
      ({ w with cursor := pos }).sync_scroll
  | none => w

/-- Window::move_to_x (crates/editor/src/window/mod.rs lines 122-139):
a no-op when the cursor line is out of range; otherwise sets the column
clamped to the max column and resyncs the scroll. -/
def Window.move_to_x (w : Window) (b : Buffer) (m : Mode) (x : Nat) :
    Window :=
  if b.get_line_count ≤ w.cursor.y then
    w
  else
    let w :=
      match w.get_cursor_max_x b m with
      | some max_x =>
        if max_x < x then
          { w with cursor := ⟨max_x, w.cursor.y⟩ }
        else
          { w with cursor := ⟨x, w.cursor.y⟩ }
      | none => w
    w.sync_scroll

/-- Window::move_to_y (crates/editor/src/window/mod.rs lines 141-158):
a no-op when y is out of range; otherwise sets the line, clamps the
column to the new line length, and resyncs the scroll. -/
def Window.move_to_y (w : Window) (b : Buffer) (y : Nat) : Window :=
  if b.get_line_count ≤ y then
    w
  else
    let w := { w with cursor := ⟨w.cursor.x, y⟩ }
    let w :=
      match b.get_line w.cursor.y with
      | some line =>
        if line.length < w.cursor.x then
          { w with cursor := ⟨line.length, w.cursor.y⟩ }
        else
          w
      | none => w
    w.sync_scroll

/-- Window::move_to_line_start: column zero, then resync scroll. -/
def Window.move_to_line_start (w : Window) : Window :=
  ({ w with cursor := ⟨0, w.cursor.y⟩ }).sync_scroll

/-- Window::move_to_line_end (crates/editor/src/window/mod.rs lines
165-176): a no-op when the cursor line is out of range; otherwise stores
usize::MAX as the column (clamped only at read time) and resyncs. -/
def Window.move_to_line_end (w : Window) (b : Buffer) : Window :=
  if b.get_line_count ≤ w.cursor.y then
    w
  else
    ({ w with cursor := ⟨USIZE_MAX, w.cursor.y⟩ }).sync_scroll

/-- Window::move_to_buffer_start: cursor to (0, 0), then resync. -/
def Window.move_to_buffer_start (w : Window) : Window :=
  ({ w with cursor := ⟨0, 0⟩ }).sync_scroll

/-- Window::move_to_buffer_end (crates/editor/src/window/mod.rs lines
183-194): cursor to the end of the last line when the buffer is
non-empty, then resync. -/
def Window.move_to_buffer_end (w : Window) (b : Buffer) : Window :=
  let w :=
    if 0 < b.get_line_count then
      match b.get_line (b.get_line_count - 1) with
      | some line => { w with cursor := ⟨line.length, b.get_line_count - 1⟩ }
      | none => w
    else
      w
  w.sync_scroll

/-- One cursor-movement call of the clamping claim: the seven public
move methods of Window. -/
inductive MoveOp where
  | move_by : IVec2 → MoveOp
  | move_to_x : Nat → MoveOp
  | move_to_y : Nat → MoveOp
  | move_to_line_start : MoveOp
  | move_to_line_end : MoveOp
  | move_to_buffer_start : MoveOp
  | move_to_buffer_end : MoveOp
deriving DecidableEq, Repr

/-- Dispatch one MoveOp to the corresponding Window method. -/
def Window.applyMove (w : Window) (b : Buffer) (m : Mode) : MoveOp → Window
  | MoveOp.move_by offset => w.move_by b m offset
  | MoveOp.move_to_x x => w.move_to_x b m x
  | MoveOp.move_to_y y => w.move_to_y b y
  | MoveOp.move_to_line_start => w.move_to_line_start
  | MoveOp.move_to_line_end => w.move_to_line_end b
  | MoveOp.move_to_buffer_start => w.move_to_buffer_start
  | MoveOp.move_to_buffer_end => w.move_to_buffer_end b

/-- Apply a finite sequence of movement calls, left to right. -/
def Window.applyMoves (w : Window) (b : Buffer) (m : Mode) :
    List MoveOp → Window
  | [] => w
  | op :: ops => (w.applyMove b m op).applyMoves b m ops

end editor

namespace editor

/-!
## Editor state and the protocol dispatcher (crates/editor/src/lib.rs)

Registries are association lists keyed by the numeric ids inside
BufferId / WindowId; windows and buffers live behind shared Arc handles
in the source, so every dispatcher arm that mutates one writes the new
value back into the registry here.  The dispatcher returns
Option (EditorState x Option ApiResponse): the outer none marks a panic
(never reached by any arm on the inputs of the claims below), the inner
option is the Option ApiResponse the source returns.
-/

/-- Update the value stored under an existing key of an association
list. -/
def setAssoc (l : List (Nat × α)) (k : Nat) (v : α) : List (Nat × α) :=
  l.map fun p => if p.1 = k then (k, v) else p

/-- EditorState (crates/editor/src/lib.rs lines 78-87): buffer and
window registries, the active window id, the global mode, and the
command-line text. -/
structure EditorState where
  buffers : List (Nat × Buffer)
  windows : List (Nat × Window)
  active_window : Nat
  mode : Mode
  command_buf : List Char
deriving DecidableEq, Repr

/-- EditorState::get_active_window. -/
def EditorState.get_active_window (st : EditorState) : Option Window :=
  st.windows.lookup st.active_window

/-- Store a buffer under its id. -/
def EditorState.setBuffer (st : EditorState) (k : Nat) (b : Buffer) :
    EditorState :=
  { st with buffers := setAssoc st.buffers k b }

/-- Store a window under its id. -/
def EditorState.setWindow (st : EditorState) (k : Nat) (w : Window) :
    EditorState :=
  { st with windows := setAssoc st.windows k w }

/-- EditorState::set_mode (crates/editor/src/lib.rs lines 119-129):
entering append-insert first moves the active window cursor one column
right (under the old mode), then stores the new mode. -/
def EditorState.set_mode (st : EditorState) (m : Mode) : EditorState :=
  let st :=
    match m with
    | Mode.Insert true =>
      match st.get_active_window with
      | some w =>
        match st.buffers.lookup w.buffer_id with
        | some b =>
          st.setWindow st.active_window (w.move_by b st.mode IVec2.right)
        | none => st
      | none => st
    | _ => st
  { st with mode := m }

/-- Position (crates/api/src/lib.rs): an absolute coordinate, the start,
or the end. -/
inductive Position where
  | Number : Nat → Position
  | Start : Position
  | LineEnd : Position
deriving DecidableEq, Repr

/-- ApiRequest (crates/api/src/lib.rs lines 44-69); BufferId and
WindowId handles are the numeric ids they wrap. -/
inductive ApiRequest where
  | ChangeMode : Mode → ApiRequest
  | OpenFile : Option (List Char) → ApiRequest
  | SaveBuffer : Option Nat → Option (List Char) → ApiRequest
  | GetLineCount : Option Nat → ApiRequest
  | GetLineLength : Option Nat → Nat → ApiRequest
  | GetChar : Option Nat → UVec2 → ApiRequest
  | GetLine : Option Nat → Nat → ApiRequest
  | GetAllLines : Option Nat → ApiRequest
  | GetContent : Option Nat → ApiRequest
  | InsertChar : Option Nat → UVec2 → Char → ApiRequest
  | InsertLine : Option Nat → Nat → List Char → ApiRequest
  | ReplaceChar : Option Nat → UVec2 → Char → ApiRequest
  | ReplaceLine : Option Nat → Nat → List Char → ApiRequest
  | ReplaceAllLines : Option Nat → List (List Char) → ApiRequest
  | ReplaceContent : Option Nat → List Char → ApiRequest
  | RemoveChar : Option Nat → UVec2 → ApiRequest
  | RemoveLine : Option Nat → Nat → ApiRequest
  | SplitLine : Option Nat → UVec2 → ApiRequest
  | JoinLines : Option Nat → Nat → ApiRequest
  | GetPosition : Option Nat → ApiRequest
  | GetVisualStart : Option Nat → ApiRequest
  | MoveBy : Option Nat → IVec2 → ApiRequest
  | MoveToX : Option Nat → Position → ApiRequest
  | MoveToY : Option Nat → Position → ApiRequest
deriving DecidableEq, Repr

/-- ApiResponse (crates/api/src/lib.rs lines 71-81). -/
inductive ApiResponse where
  | None : ApiResponse
  | Number : Nat → ApiResponse
  | Vec2 : UVec2 → ApiResponse
  | Char : Char → ApiResponse
  | String : List Char → ApiResponse
  | VecString : List (List Char) → ApiResponse
  | BufferId : Nat → ApiResponse
  | WindowId : Nat → ApiResponse
deriving DecidableEq, Repr

/-- The dispatcher helper get_buffer: an explicit handle is looked up in
the registry; an omitted handle resolves to the active window and then to
the buffer it references.  Returns the registry key together with the
buffer so mutations can be written back. -/
def EditorState.resolveBuffer (st : EditorState) :
    Option Nat → Option (Nat × Buffer)
  | some id => (st.buffers.lookup id).map fun b => (id, b)
  | none =>
    match st.get_active_window with
    | some w => (st.buffers.lookup w.buffer_id).map fun b => (w.buffer_id, b)
    | none => none

/-- The dispatcher helper get_window: an explicit handle is looked up in
the registry; an omitted handle resolves to the active window. -/
def EditorState.resolveWindow (st : EditorState) :
    Option Nat → Option (Nat × Window)
  | some id => (st.windows.lookup id).map fun w => (id, w)
  | none => (st.get_active_window).map fun w => (st.active_window, w)

/-- Buffer::get_all_lines (src/buffer/mod.rs lines 63-69): the joined
content split again at newlines. -/
def Buffer.get_all_lines (b : Buffer) : List (List Char) :=
  b.get_content.splitOn '\n'

/-- EditorApiHandler::process (crates/editor/src/lib.rs lines 175-414).
Each arm resolves its optional handle, applies the operation, writes the
mutated object back, and produces the response of the source; a request
whose handle does not resolve falls through to Some(ApiResponse::None)
without touching the state, and the two arms the source leaves to the
wildcard (OpenFile, GetVisualStart) produce the Rust None. -/
def EditorState.process (st : EditorState) (req : ApiRequest) :
    Option (EditorState × Option ApiResponse) :=
  match req with
  | ApiRequest.ChangeMode m => some (st.set_mode m, some ApiResponse.None)
  | ApiRequest.SaveBuffer buf _path =>
    match st.resolveBuffer buf with
    | some (k, b) => some (st.setBuffer k b.save, some ApiResponse.None)
    | none => some (st, some ApiResponse.None)
  | ApiRequest.GetLineCount buf =>
    match st.resolveBuffer buf with
    | some (_, b) => some (st, some (ApiResponse.Number b.get_line_count))
    | none => some (st, some ApiResponse.None)
  | ApiRequest.GetLineLength buf y =>
    match st.resolveBuffer buf with
    | some (_, b) =>
      match b.get_line_length y with
      | some len => some (st, some (ApiResponse.Number len))
      | none => some (st, some ApiResponse.None)
    | none => some (st, some ApiResponse.None)
  | ApiRequest.GetChar buf pos =>
    match st.resolveBuffer buf with
    | some (_, b) =>
      match b.get_char_v pos with
      | some ch => some (st, some (ApiResponse.Char ch))
      | none => some (st, some ApiResponse.None)
    | none => some (st, some ApiResponse.None)
  | ApiRequest.GetLine buf y =>
    match st.resolveBuffer buf with
    | some (_, b) =>
      match b.get_line y with
      | some line => some (st, some (ApiResponse.String line))
      | none => some (st, some ApiResponse.None)
    | none => some (st, some ApiResponse.None)
  | ApiRequest.GetAllLines buf =>
    match st.resolveBuffer buf with
    | some (_, b) => some (st, some (ApiResponse.VecString b.get_all_lines))
    | none => some (st, some ApiResponse.None)
  | ApiRequest.GetContent buf =>
    match st.resolveBuffer buf with
    | some (_, b) => some (st, some (ApiResponse.String b.get_content))
    | none => some (st, some ApiResponse.None)
  | ApiRequest.InsertChar buf pos ch =>
    match st.resolveBuffer buf with
    | some (k, b) =>
      match b.insert_char_v pos ch with
      | some b2 => some (st.setBuffer k b2, some ApiResponse.None)
      | none => none
    | none => some (st, some ApiResponse.None)
  | ApiRequest.InsertLine buf y line =>
    match st.resolveBuffer buf with
    | some (k, b) =>
      match b.insert_line y line with
      | some b2 => some (st.setBuffer k b2, some ApiResponse.None)
      | none => none
    | none => some (st, some ApiResponse.None)
  | ApiRequest.ReplaceChar buf pos ch =>
    match st.resolveBuffer buf with
    | some (k, b) =>
      match b.replace_char pos ch with
      | some (some old, b2) =>
        some (st.setBuffer k b2, some (ApiResponse.Char old))
      | some (none, b2) => some (st.setBuffer k b2, some ApiResponse.None)
      | none => none
    | none => some (st, some ApiResponse.None)
  | ApiRequest.ReplaceLine buf y line =>
    match st.resolveBuffer buf with
    | some (k, b) =>
      match b.replace_line y line with
      | (some old, b2) => some (st.setBuffer k b2, some (ApiResponse.String old))
      | (none, b2) => some (st.setBuffer k b2, some ApiResponse.None)
    | none => some (st, some ApiResponse.None)
  | ApiRequest.ReplaceAllLines buf lines =>
    match st.resolveBuffer buf with
    | some (k, b) =>
      match b.replace_all_lines lines with
      | (old, b2) => some (st.setBuffer k b2, some (ApiResponse.VecString old))
    | none => some (st, some ApiResponse.None)
  | ApiRequest.ReplaceContent buf text =>
    match st.resolveBuffer buf with
    | some (k, b) =>
      match b.replace_content text with
      | (old, b2) => some (st.setBuffer k b2, some (ApiResponse.String old))
    | none => some (st, some ApiResponse.None)
  | ApiRequest.RemoveChar buf pos =>
    match st.resolveBuffer buf with
    | some (k, b) =>
      match b.remove_char_v pos with
      | (some ch, b2) => some (st.setBuffer k b2, some (ApiResponse.Char ch))
      | (none, b2) => some (st.setBuffer k b2, some ApiResponse.None)
    | none => some (st, some ApiResponse.None)
  | ApiRequest.RemoveLine buf y =>
    match st.resolveBuffer buf with
    | some (k, b) =>
      match b.remove_line y with
      | (some line, b2) =>
        some (st.setBuffer k b2, some (ApiResponse.String line))
      | (none, b2) => some (st.setBuffer k b2, some ApiResponse.None)
    | none => some (st, some ApiResponse.None)
  | ApiRequest.SplitLine buf pos =>
    match st.resolveBuffer buf with
    | some (k, b) =>
      match b.split_line_v pos with
      | some b2 => some (st.setBuffer k b2, some ApiResponse.None)
      | none => none
    | none => some (st, some ApiResponse.None)
  | ApiRequest.JoinLines buf y =>
    match st.resolveBuffer buf with
    | some (k, b) => some (st.setBuffer k (b.join_lines y), some ApiResponse.None)
    | none => some (st, some ApiResponse.None)
  | ApiRequest.GetPosition win =>
    match st.resolveWindow win with
    | some (_, w) =>
      match st.buffers.lookup w.buffer_id with
      | some b =>
        some (st, some (ApiResponse.Vec2 (w.get_render_cursor b st.mode)))
      | none => some (st, some ApiResponse.None)
    | none => some (st, some ApiResponse.None)
  | ApiRequest.MoveBy win offset =>
    match st.resolveWindow win with
    | some (k, w) =>
      match st.buffers.lookup w.buffer_id with
      | some b =>
        some (st.setWindow k (w.move_by b st.mode offset), some ApiResponse.None)
      | none => some (st, some ApiResponse.None)
    | none => some (st, some ApiResponse.None)
  | ApiRequest.MoveToX win pos =>
    match st.resolveWindow win with
    | some (k, w) =>
      match st.buffers.lookup w.buffer_id with
      | some b =>
        let w2 :=
          match pos with
          | Position.Number x => w.move_to_x b st.mode x
          | Position.Start => w.move_to_line_start
          | Position.LineEnd => w.move_to_line_end b
        some (st.setWindow k w2, some ApiResponse.None)
      | none => some (st, some ApiResponse.None)
    | none => some (st, some ApiResponse.None)
  | ApiRequest.MoveToY win pos =>
    match st.resolveWindow win with
    | some (k, w) =>
      match st.buffers.lookup w.buffer_id with
      | some b =>
        let w2 :=
          match pos with
          | Position.Number y => w.move_to_y b y
          | Position.Start => w.move_to_buffer_start
          | Position.LineEnd => w.move_to_buffer_end b
        some (st.setWindow k w2, some ApiResponse.None)
      | none => some (st, some ApiResponse.None)
    | none => some (st, some ApiResponse.None)
  | ApiRequest.OpenFile _ => some (st, none)
  | ApiRequest.GetVisualStart _ => some (st, none)

end editor

namespace editor

/-- EditorApplication::process_insert, KeyCode::Backspace arm
(crates/editor/src/lib.rs lines 487-519).  The source starts the arm with
the empty statement if cursor.x == 0 and cursor.y == 0 then nothing, which
has no effect, and then unconditionally reaches
join_lines(cursor.y - 1) whenever cursor.x == 0; the checked subtraction
returns none there when cursor.y == 0, modelling the usize underflow
panic.  The result none therefore marks a panic of the handler. -/
def process_insert_backspace (st : EditorState) : Option EditorState :=
  match st.get_active_window with
  | none => some st
  | some w =>
    match st.buffers.lookup w.buffer_id with
    | none => some st
    | some b =>
      let cursor := w.get_render_cursor b st.mode
      let x := cursor.x
      let line_len : Option Nat :=
        if cursor.x = 0 ∧ cursor.y ≠ 0 then
          b.get_line_length (cursor.y - 1)
        else
          none
      match
        (if cursor.x = 0 then
          (usizeCheckedSub cursor.y 1).map fun y1 => b.join_lines y1
        else
          some (b.remove_char_v ⟨cursor.x - 1, cursor.y⟩).2)
      with
      | none => none
      | some b2 =>
        let st1 := st.setBuffer w.buffer_id b2
        let w2 :=
          if cursor.x ≠ 0 then
            w.move_to_x b2 st.mode (x - 1)
          else
            match line_len with
            | some ll =>
              if cursor.y ≠ 0 then
                (w.move_by b2 st.mode ⟨0, -1⟩).move_to_x b2 st.mode ll
              else
                w
            | none => w
        some (st1.setWindow st.active_window w2)

end editor

namespace cuprum

/-!
## The newest dispatcher (src/lib.rs, EditorApiHandler::process)

This generation exchanges CuprumApiRequestKind / CuprumApiResponseKind
values; the api crate revision declaring them is absent from the
snapshot, so the two sums are modelled from the spec (section 6: one
variant per operation, named after it, payload mirroring the operation
argument and return types) and from their uses in src/lib.rs.  The
editor state, buffers and windows are those of namespace editor.  The
outer none of the result marks a panic: the OpenFile arm of the source
is literally todo!().
-/

open editor

/-- CuprumApiRequestKind, modelled from the spec and its uses in
src/lib.rs: one variant per operation with optional handle. -/
inductive CuprumApiRequestKind where
  | ChangeMode : Mode → CuprumApiRequestKind
  | OpenFile : Option (List Char) → CuprumApiRequestKind
  | SaveBuffer : Option Nat → Option (List Char) → CuprumApiRequestKind
  | GetLineCount : Option Nat → CuprumApiRequestKind
  | GetLineLength : Option Nat → Nat → CuprumApiRequestKind
  | GetChar : Option Nat → UVec2 → CuprumApiRequestKind
  | GetLine : Option Nat → Nat → CuprumApiRequestKind
  | GetAllLines : Option Nat → CuprumApiRequestKind
  | GetContent : Option Nat → CuprumApiRequestKind
  | InsertChar : Option Nat → UVec2 → Char → CuprumApiRequestKind
  | InsertLine : Option Nat → Nat → List Char → CuprumApiRequestKind
  | ReplaceChar : Option Nat → UVec2 → Char → CuprumApiRequestKind
  | ReplaceLine : Option Nat → Nat → List Char → CuprumApiRequestKind
  | ReplaceAllLines : Option Nat → List (List Char) → CuprumApiRequestKind
  | ReplaceContent : Option Nat → List Char → CuprumApiRequestKind
  | RemoveChar : Option Nat → UVec2 → CuprumApiRequestKind
  | RemoveLine : Option Nat → Nat → CuprumApiRequestKind
  | SplitLine : Option Nat → UVec2 → CuprumApiRequestKind
  | JoinLines : Option Nat → Nat → CuprumApiRequestKind
  | GetCursor : Option Nat → CuprumApiRequestKind
  | GetVisualStart : Option Nat → CuprumApiRequestKind
  | MoveBy : Option Nat → IVec2 → CuprumApiRequestKind
  | MoveToX : Option Nat → Position → CuprumApiRequestKind
  | MoveToY : Option Nat → Position → CuprumApiRequestKind
deriving DecidableEq, Repr

/-- CuprumApiResponseKind, modelled from the spec and its uses in
src/lib.rs: one variant per returning operation carrying its return
value. -/
inductive CuprumApiResponseKind where
  | GetLineCount : Nat → CuprumApiResponseKind
  | GetLineLength : Nat → CuprumApiResponseKind
  | GetChar : Char → CuprumApiResponseKind
  | GetLine : List Char → CuprumApiResponseKind
  | GetAllLines : List (List Char) → CuprumApiResponseKind
  | GetContent : List Char → CuprumApiResponseKind
  | ReplaceChar : Char → CuprumApiResponseKind
  | ReplaceLine : List Char → CuprumApiResponseKind
  | ReplaceAllLines : List (List Char) → CuprumApiResponseKind
  | ReplaceContent : List Char → CuprumApiResponseKind
  | RemoveChar : Char → CuprumApiResponseKind
  | RemoveLine : List Char → CuprumApiResponseKind
  | GetCursor : UVec2 → CuprumApiResponseKind
  | GetVisualStart : UVec2 → CuprumApiResponseKind
deriving DecidableEq, Repr

/-- EditorApiHandler::process (src/lib.rs lines 45-290).  Identical in
structure to the crates dispatcher, but an absent result is the Rust
None response, GetCursor and GetVisualStart are handled, and OpenFile is
todo!() (modelled as the panic none). -/
def process (st : EditorState) (req : CuprumApiRequestKind) :
    Option (EditorState × Option CuprumApiResponseKind) :=
  match req with
  | CuprumApiRequestKind.ChangeMode m => some (st.set_mode m, none)
  | CuprumApiRequestKind.OpenFile _ => none
  | CuprumApiRequestKind.SaveBuffer buf _path =>
    match st.resolveBuffer buf with
    | some (k, b) => some (st.setBuffer k b.save, none)
    | none => some (st, none)
  | CuprumApiRequestKind.GetLineCount buf =>
    match st.resolveBuffer buf with
    | some (_, b) =>
      some (st, some (CuprumApiResponseKind.GetLineCount b.get_line_count))
    | none => some (st, none)
  | CuprumApiRequestKind.GetLineLength buf y =>
    match st.resolveBuffer buf with
    | some (_, b) =>
      match b.get_line_length y with
      | some len => some (st, some (CuprumApiResponseKind.GetLineLength len))
      | none => some (st, none)
    | none => some (st, none)
  | CuprumApiRequestKind.GetChar buf pos =>
    match st.resolveBuffer buf with
    | some (_, b) =>
      match b.get_char_v pos with
      | some ch => some (st, some (CuprumApiResponseKind.GetChar ch))
      | none => some (st, none)
    | none => some (st, none)
  | CuprumApiRequestKind.GetLine buf y =>
    match st.resolveBuffer buf with
    | some (_, b) =>
      match b.get_line y with
      | some line => some (st, some (CuprumApiResponseKind.GetLine line))
      | none => some (st, none)
    | none => some (st, none)
  | CuprumApiRequestKind.GetAllLines buf =>
    match st.resolveBuffer buf with
    | some (_, b) =>
      some (st, some (CuprumApiResponseKind.GetAllLines b.get_all_lines))
    | none => some (st, none)
  | CuprumApiRequestKind.GetContent buf =>
    match st.resolveBuffer buf with
    | some (_, b) =>
      some (st, some (CuprumApiResponseKind.GetContent b.get_content))
    | none => some (st, none)
  | CuprumApiRequestKind.InsertChar buf pos ch =>
    match st.resolveBuffer buf with
    | some (k, b) =>
      match b.insert_char_v pos ch with
      | some b2 => some (st.setBuffer k b2, none)
      | none => none
    | none => some (st, none)
  | CuprumApiRequestKind.InsertLine buf y line =>
    match st.resolveBuffer buf with
    | some (k, b) =>
      match b.insert_line y line with
      | some b2 => some (st.setBuffer k b2, none)
      | none => none
    | none => some (st, none)
  | CuprumApiRequestKind.ReplaceChar buf pos ch =>
    match st.resolveBuffer buf with
    | some (k, b) =>
      match b.replace_char pos ch with
      | some (some old, b2) =>
        some (st.setBuffer k b2, some (CuprumApiResponseKind.ReplaceChar old))
      | some (none, b2) => some (st.setBuffer k b2, none)
      | none => none
    | none => some (st, none)
  | CuprumApiRequestKind.ReplaceLine buf y line =>
    match st.resolveBuffer buf with
    | some (k, b) =>
      match b.replace_line y line with
      | (some old, b2) =>
        some (st.setBuffer k b2, some (CuprumApiResponseKind.ReplaceLine old))
      | (none, b2) => some (st.setBuffer k b2, none)
    | none => some (st, none)
  | CuprumApiRequestKind.ReplaceAllLines buf lines =>
    match st.resolveBuffer buf with
    | some (k, b) =>
      match b.replace_all_lines lines with
      | (old, b2) =>
        some (st.setBuffer k b2,
          some (CuprumApiResponseKind.ReplaceAllLines old))
    | none => some (st, none)
  | CuprumApiRequestKind.ReplaceContent buf text =>
    match st.resolveBuffer buf with
    | some (k, b) =>
      match b.replace_content text with
      | (old, b2) =>
        some (st.setBuffer k b2, some (CuprumApiResponseKind.ReplaceContent old))
    | none => some (st, none)
  | CuprumApiRequestKind.RemoveChar buf pos =>
    match st.resolveBuffer buf with
    | some (k, b) =>
      match b.remove_char_v pos with
      | (some ch, b2) =>
        some (st.setBuffer k b2, some (CuprumApiResponseKind.RemoveChar ch))
      | (none, b2) => some (st.setBuffer k b2, none)
    | none => some (st, none)
  | CuprumApiRequestKind.RemoveLine buf y =>
    match st.resolveBuffer buf with
    | some (k, b) =>
      match b.remove_line y with
      | (some line, b2) =>
        some (st.setBuffer k b2, some (CuprumApiResponseKind.RemoveLine line))
      | (none, b2) => some (st.setBuffer k b2, none)
    | none => some (st, none)
  | CuprumApiRequestKind.SplitLine buf pos =>
    match st.resolveBuffer buf with
    | some (k, b) =>
      match b.split_line_v pos with
      | some b2 => some (st.setBuffer k b2, none)
      | none => none
    | none => some (st, none)
  | CuprumApiRequestKind.JoinLines buf y =>
    match st.resolveBuffer buf with
    | some (k, b) => some (st.setBuffer k (b.join_lines y), none)
    | none => some (st, none)
  | CuprumApiRequestKind.GetCursor win =>
    match st.resolveWindow win with
    | some (_, w) =>
      match st.buffers.lookup w.buffer_id with
      | some b =>
        some (st,
          some (CuprumApiResponseKind.GetCursor (w.get_render_cursor b st.mode)))
      | none => some (st, none)
    | none => some (st, none)
  | CuprumApiRequestKind.GetVisualStart win =>
    match st.resolveWindow win with
    | some (_, w) =>
      some (st, some (CuprumApiResponseKind.GetVisualStart w.get_visual_start))
    | none => some (st, none)
  | CuprumApiRequestKind.MoveBy win offset =>
    match st.resolveWindow win with
    | some (k, w) =>
      match st.buffers.lookup w.buffer_id with
      | some b => some (st.setWindow k (w.move_by b st.mode offset), none)
      | none => some (st, none)
    | none => some (st, none)
  | CuprumApiRequestKind.MoveToX win pos =>
    match st.resolveWindow win with
    | some (k, w) =>
      match st.buffers.lookup w.buffer_id with
      | some b =>
        let w2 :=
          match pos with
          | Position.Number x => w.move_to_x b st.mode x
          | Position.Start => w.move_to_line_start
          | Position.LineEnd => w.move_to_line_end b
        some (st.setWindow k w2, none)
      | none => some (st, none)
    | none => some (st, none)
  | CuprumApiRequestKind.MoveToY win pos =>
    match st.resolveWindow win with
    | some (k, w) =>
      match st.buffers.lookup w.buffer_id with
      | some b =>
        let w2 :=
          match pos with
          | Position.Number y => w.move_to_y b y
          | Position.Start => w.move_to_buffer_start
          | Position.LineEnd => w.move_to_buffer_end b
        some (st.setWindow k w2, none)
      | none => some (st, none)
    | none => some (st, none)

end cuprum

namespace builtin

/-!
## Builtin bridge (crates/builtin/src/lib.rs)

Each CuprumApi wrapper (crates/api/src/lib.rs) sends one request through
the provider and checks the response variant, failing with a
mismatched-types error otherwise; the builtin provider delivers the
request to the dispatcher and returns its response.  The composition is
modelled by calling the dispatcher directly; the result none covers both
a propagated error and a panic, either of which aborts
Builtin::on_action through the question-mark operator. -/

open editor
open cuprum

/-- CuprumApi::get_position via the dispatcher: expects a cursor
response. -/
def api_get_position (st : EditorState) : Option (EditorState × UVec2) :=
  match process st (CuprumApiRequestKind.GetCursor none) with
  | some (st2, some (CuprumApiResponseKind.GetCursor pos)) => some (st2, pos)
  | _ => none

/-- CuprumApi::get_visual_start via the dispatcher: expects a position
response. -/
def api_get_visual_start (st : EditorState) : Option (EditorState × UVec2) :=
  match process st (CuprumApiRequestKind.GetVisualStart none) with
  | some (st2, some (CuprumApiResponseKind.GetVisualStart pos)) =>
    some (st2, pos)
  | _ => none

/-- CuprumApi::get_line_length via the dispatcher: expects a length
response. -/
def api_get_line_length (st : EditorState) (y : Nat) :
    Option (EditorState × Nat) :=
  match process st (CuprumApiRequestKind.GetLineLength none y) with
  | some (st2, some (CuprumApiResponseKind.GetLineLength len)) =>
    some (st2, len)
  | _ => none

/-- CuprumApi::remove_char via the dispatcher: expects a character
response. -/
def api_remove_char (st : EditorState) (pos : UVec2) :
    Option (EditorState × Char) :=
  match process st (CuprumApiRequestKind.RemoveChar none pos) with
  | some (st2, some (CuprumApiResponseKind.RemoveChar ch)) => some (st2, ch)
  | _ => none

/-- CuprumApi::remove_line via the dispatcher: expects a line response. -/
def api_remove_line (st : EditorState) (y : Nat) :
    Option (EditorState × List Char) :=
  match process st (CuprumApiRequestKind.RemoveLine none y) with
  | some (st2, some (CuprumApiResponseKind.RemoveLine line)) =>
    some (st2, line)
  | _ => none

/-- CuprumApi::join_lines via the dispatcher: void, any response is
accepted. -/
def api_join_lines (st : EditorState) (y : Nat) : Option EditorState :=
  match process st (CuprumApiRequestKind.JoinLines none y) with
  | some (st2, _) => some st2
  | none => none

/-- CuprumApi::move_to_x via the dispatcher: void. -/
def api_move_to_x (st : EditorState) (pos : Position) : Option EditorState :=
  match process st (CuprumApiRequestKind.MoveToX none pos) with
  | some (st2, _) => some st2
  | none => none

/-- CuprumApi::move_to_y via the dispatcher: void. -/
def api_move_to_y (st : EditorState) (pos : Position) : Option EditorState :=
  match process st (CuprumApiRequestKind.MoveToY none pos) with
  | some (st2, _) => some st2
  | none => none

/-- CuprumApi::change_mode via the dispatcher: void. -/
def api_change_mode (st : EditorState) (m : Mode) : Option EditorState :=
  match process st (CuprumApiRequestKind.ChangeMode m) with
  | some (st2, _) => some st2
  | none => none

/-- A counted Rust for-loop of remove_char calls at a fixed position. -/
def repeatRemoveChar (pos : UVec2) :
    Nat → EditorState → Option EditorState
  | 0, st => some st
  | n + 1, st =>
    match api_remove_char st pos with
    | some (st2, _) => repeatRemoveChar pos n st2
    | none => none

/-- A counted Rust for-loop of remove_line calls at a fixed line. -/
def repeatRemoveLine (y : Nat) :
    Nat → EditorState → Option EditorState
  | 0, st => some st
  | n + 1, st =>
    match api_remove_line st y with
    | some (st2, _) => repeatRemoveLine y n st2
    | none => none

/-- Builtin::on_action, BuiltinAction::RemoveSelection arm
(crates/builtin/src/lib.rs lines 87-134).  Reads the effective cursor and
the visual anchor, normalizes them to (left, right) with the
lexicographic (line, column) order, then for a multi-line range: removes
right.x + 1 characters at column 0 of the right line, removes the
interior lines, removes line_len - left.x characters AT COLUMN 0 of the
left line, joins the two lines; for a single-line range removes
right.x - left.x characters at the left position.  Finally moves the
cursor to (visual_start.x, visual_start.y - z) and returns to Normal
mode.  The Rust for-loops over a..b are modelled as b - a repetitions. -/
def remove_selection (st : EditorState) : Option EditorState := do
  let (st, cursor) ← api_get_position st
  let (st, visual_start) ← api_get_visual_start st
  let (left, right, xflag) :=
    if UVec2.ltb cursor visual_start then
      (cursor, visual_start, true)
    else
      (visual_start, cursor, false)
  let (st, z) ←
    if left.y ≠ right.y then do
      let st ← repeatRemoveChar ⟨0, right.y⟩ (right.x + 1) st
      let z := right.y - left.y - 1
      let st ← repeatRemoveLine (left.y + 1) (right.y - (left.y + 1)) st
      let (st, line_len) ← api_get_line_length st left.y
      let st ← repeatRemoveChar ⟨0, left.y⟩ (line_len - left.x) st
      let st ← api_join_lines st left.y
      pure (st, if xflag then z else 0)
    else do
      let st ← repeatRemoveChar ⟨left.x, left.y⟩ (right.x - left.x) st
      pure (st, 0)
  let st ← api_move_to_y st (Position.Number (visual_start.y - z))
  let st ← api_move_to_x st (Position.Number visual_start.x)
  let st ← api_change_mode st Mode.Normal
  pure st

end builtin

namespace plugin

/-- Plugin::process_response (crates/plugin-manager/src/lib.rs lines
48-62): after the responses-ready signal, serializes and writes every
response in the locked queue to the child stdin in order — and leaves
the queue exactly as it found it (the source iterates a clone of the
queue and never clears it).  Returns (lines written, queue afterwards). -/
def process_response (queue : List α) : List α × List α :=
  (queue, queue)

end plugin

/-- An explicit buffer handle absent from the registry, or an omitted
buffer handle when there is no active window to resolve it. -/
def editor.bufMissing (st : editor.EditorState) : Option Nat → Bool
  | some id => (st.buffers.lookup id).isNone
  | none => st.get_active_window.isNone

/-- An explicit window handle absent from the registry, or an omitted
window handle when there is no active window. -/
def editor.winMissing (st : editor.EditorState) : Option Nat → Bool
  | some id => (st.windows.lookup id).isNone
  | none => st.get_active_window.isNone

/-- The resource-not-found hypothesis of the dispatcher claim: the
request names a buffer or window handle that does not resolve
(requests carrying no handle at all are out of scope). -/
def editor.refsMissing (st : editor.EditorState) : editor.ApiRequest → Bool
  | editor.ApiRequest.ChangeMode _ => false
  | editor.ApiRequest.OpenFile _ => false
  | editor.ApiRequest.SaveBuffer b _ => editor.bufMissing st b
  | editor.ApiRequest.GetLineCount b => editor.bufMissing st b
  | editor.ApiRequest.GetLineLength b _ => editor.bufMissing st b
  | editor.ApiRequest.GetChar b _ => editor.bufMissing st b
  | editor.ApiRequest.GetLine b _ => editor.bufMissing st b
  | editor.ApiRequest.GetAllLines b => editor.bufMissing st b
  | editor.ApiRequest.GetContent b => editor.bufMissing st b
  | editor.ApiRequest.InsertChar b _ _ => editor.bufMissing st b
  | editor.ApiRequest.InsertLine b _ _ => editor.bufMissing st b
  | editor.ApiRequest.ReplaceChar b _ _ => editor.bufMissing st b
  | editor.ApiRequest.ReplaceLine b _ _ => editor.bufMissing st b
  | editor.ApiRequest.ReplaceAllLines b _ => editor.bufMissing st b
  | editor.ApiRequest.ReplaceContent b _ => editor.bufMissing st b
  | editor.ApiRequest.RemoveChar b _ => editor.bufMissing st b
  | editor.ApiRequest.RemoveLine b _ => editor.bufMissing st b
  | editor.ApiRequest.SplitLine b _ => editor.bufMissing st b
  | editor.ApiRequest.JoinLines b _ => editor.bufMissing st b
  | editor.ApiRequest.GetPosition w => editor.winMissing st w
  | editor.ApiRequest.GetVisualStart w => editor.winMissing st w
  | editor.ApiRequest.MoveBy w _ => editor.winMissing st w
  | editor.ApiRequest.MoveToX w _ => editor.winMissing st w
  | editor.ApiRequest.MoveToY w _ => editor.winMissing st w

/-!
## Concrete fixtures used by the theorems below
-/

/-- The Example 3 buffer: lines abcdef and ghijkl. -/
def bufferC1 : editor.Buffer :=
  ⟨none, [['a', 'b', 'c', 'd', 'e', 'f'], ['g', 'h', 'i', 'j', 'k', 'l']],
    false⟩

/-- The Example 3 window: cursor at (3, 1), visual anchor at (2, 0). -/
def windowC1 : editor.Window :=
  { buffer_id := 0, cursor := ⟨3, 1⟩, scroll := 0, position := ⟨0, 0⟩,
    size := ⟨80, 23⟩, visual_start := ⟨2, 0⟩ }

/-- The Example 3 editor state, in Visual mode. -/
def stateC1 : editor.EditorState :=
  ⟨[(0, bufferC1)], [(0, windowC1)], 0, Mode.Visual, []⟩

/-- The Example 1 document as a rope: Hello, newline, World. -/
def helloWorldRope : content.BufferContent :=
  ⟨['H', 'e', 'l', 'l', 'o', '\n', 'W', 'o', 'r', 'l', 'd']⟩

/-- The Example 1 document as lines. -/
def helloWorldLines : editor.Buffer :=
  ⟨none, [['H', 'e', 'l', 'l', 'o'], ['W', 'o', 'r', 'l', 'd']], false⟩

/-- A one-line buffer holding abc. -/
def abcBuffer : editor.Buffer := ⟨none, [['a', 'b', 'c']], false⟩

/-- A window over abcBuffer with the cursor at the origin. -/
def windowC3 : editor.Window :=
  { buffer_id := 0, cursor := ⟨0, 0⟩, scroll := 0, position := ⟨0, 0⟩,
    size := ⟨80, 23⟩, visual_start := ⟨0, 0⟩ }

/-- A window over abcBuffer whose stored column 5 exceeds the max
column 2 of its line. -/
def windowC4 : editor.Window :=
  { buffer_id := 0, cursor := ⟨5, 0⟩, scroll := 0, position := ⟨0, 0⟩,
    size := ⟨80, 23⟩, visual_start := ⟨0, 0⟩ }

/-- A one-line buffer holding ab. -/
def bufferC10 : editor.Buffer := ⟨none, [['a', 'b']], false⟩

/-- A window over bufferC10 with the cursor at (0, 0). -/
def windowC10 : editor.Window :=
  { buffer_id := 0, cursor := ⟨0, 0⟩, scroll := 0, position := ⟨0, 0⟩,
    size := ⟨80, 23⟩, visual_start := ⟨0, 0⟩ }

/-- An editor state in Insert mode with the cursor at the buffer start. -/
def stateC10 : editor.EditorState :=
  ⟨[(0, bufferC10)], [(0, windowC10)], 0, Mode.Insert false, []⟩

/-- An editor state with empty registries (no buffers, no windows). -/
def stateEmpty : editor.EditorState := ⟨[], [], 0, Mode.Normal, []⟩

/-- A two-line rope document: ab, newline, cd. -/
def ropeFixture : content.BufferContent := ⟨['a', 'b', '\n', 'c', 'd']⟩

/-- Claim C1: executing the builtin RemoveSelection on the Example 3
state (lines abcdef / ghijkl, Visual anchor (2,0), cursor (3,1)) leaves
the mode Normal but the buffer as the single line efkl: step (3) of the
source removes line_len - left.x characters at column 0 of the left
line, deleting its PREFIX abcd and keeping its suffix ef, instead of
removing the suffix cdef from the left column as the claim states (which
would give abkl). -/
theorem remove_selection_example3_eval :
    (builtin.remove_selection stateC1).map
        (fun st => (st.buffers.map fun p => p.2.content, st.mode))
      = some ([[['e', 'f', 'k', 'l']]], Mode.Normal)
    ∧ (builtin.remove_selection stateC1).map
        (fun st => st.buffers.map fun p => p.2.content)
      ≠ some [[['a', 'b', 'k', 'l']]] := by
  constructor
  · rfl
  · decide

/-- Claim C2: remove_char at (column 1, line 0) of Hello / World.  The
rope implementation (src/buffer/content.rs) returns the character e but
removes the empty range 1..1, leaving the text unchanged, contradicting
the claim; the lines implementation (crates/editor/src/buffer/mod.rs),
whose own unit test states the claim, does return e and delete it. -/
theorem remove_char_example1_eval :
    content.BufferContent.remove_char helloWorldRope
        (helloWorldRope.vec2_to_index ⟨1, 0⟩)
      = (some 'e', helloWorldRope)
    ∧ editor.Buffer.remove_char helloWorldLines 1 0
      = (some 'e',
          ⟨none, [['H', 'l', 'l', 'o'], ['W', 'o', 'r', 'l', 'd']], true⟩) := by
  constructor
  · rfl
  · rfl

/-- Claim C8: the insert primitive of the rope Buffer
(src/buffer/mod.rs) changes the content of the default buffer from empty
to a but leaves the dirty flag false, contradicting the contract that
every mutation marks the buffer dirty (insert_char, remove and
remove_char delegate the same way without mark_dirty). -/
theorem buffer_insert_leaves_dirty_false :
    (core.Buffer.default.insert 0 ['a']).get_content = ['a']
    ∧ core.Buffer.default.get_content = []
    ∧ (core.Buffer.default.insert 0 ['a']).dirty = false
    ∧ (core.Buffer.default.insert_char 0 'b').dirty = false
    ∧ ((core.Buffer.default.insert 0 ['a']).remove 0 1).2.dirty = false
    ∧ ((core.Buffer.default.insert 0 ['a']).remove_char 0).2.dirty = false := by
  refine ⟨rfl, rfl, rfl, rfl, rfl, rfl⟩

/-- Claim C9: the plugin response pump never drains its queue.  With one
queued response, the first responses-ready signal writes it and leaves
it queued; after a second response arrives, the second signal writes the
first response again, so across two signals response 0 is written twice
(the claim states every response is written exactly once and the queue
is left empty). -/
theorem response_pump_never_drains :
    (plugin.process_response [0]).2 = [0]
    ∧ ((plugin.process_response [0]).1
        ++ (plugin.process_response ((plugin.process_response [0]).2 ++ [1])).1).count 0
      = 2 := by
  constructor
  · rfl
  · rfl

/-- Claim C10: the Insert-mode Backspace handler panics at the buffer
start.  With the effective cursor at (0, 0) the source reaches
join_lines(cursor.y - 1) with cursor.y == 0 (the guard statement for
this case is an empty block), so the usize subtraction underflows; the
model returns none, not the unchanged state the claim requires. -/
theorem insert_backspace_at_origin_panics :
    editor.process_insert_backspace stateC10 = none := by
  rfl

/-- sync_scroll writes only the scroll field: the cursor is untouched. -/
theorem editor.Window.sync_scroll_cursor (w : editor.Window) :
    w.sync_scroll.cursor = w.cursor := by
  unfold editor.Window.sync_scroll
  split_ifs <;> rfl

/-- Claim C5: after sync_scroll the cursor line lies inside the viewport
(scroll ≤ line < scroll + height when the height is positive, scroll =
line when the height is zero), and no field other than scroll changes. -/
theorem sync_scroll_invariant (w : editor.Window) :
    w.sync_scroll.cursor = w.cursor
    ∧ w.sync_scroll.buffer_id = w.buffer_id
    ∧ w.sync_scroll.position = w.position
    ∧ w.sync_scroll.size = w.size
    ∧ w.sync_scroll.visual_start = w.visual_start
    ∧ (0 < w.size.y →
        w.sync_scroll.scroll ≤ w.cursor.y
        ∧ w.cursor.y < w.sync_scroll.scroll + w.size.y)
    ∧ (w.size.y = 0 → w.sync_scroll.scroll = w.cursor.y) := by
  unfold editor.Window.sync_scroll
  split_ifs with h1 h2 h3 <;>
    refine ⟨rfl, rfl, rfl, rfl, rfl, fun h => ?_, fun h => ?_⟩ <;>
    (try simp only []) <;> omega

/-- Witness for claim C5 at a concrete window. -/
theorem sync_scroll_invariant_witness :
    windowC4.sync_scroll.cursor = windowC4.cursor
    ∧ windowC4.sync_scroll.buffer_id = windowC4.buffer_id
    ∧ windowC4.sync_scroll.position = windowC4.position
    ∧ windowC4.sync_scroll.size = windowC4.size
    ∧ windowC4.sync_scroll.visual_start = windowC4.visual_start
    ∧ (0 < windowC4.size.y →
        windowC4.sync_scroll.scroll ≤ windowC4.cursor.y
        ∧ windowC4.cursor.y < windowC4.sync_scroll.scroll + windowC4.size.y)
    ∧ (windowC4.size.y = 0 →
        windowC4.sync_scroll.scroll = windowC4.cursor.y) :=
  sync_scroll_invariant windowC4

/-- The move_by pre-clamp touches only the cursor column. -/
theorem editor.Window.move_by_preclamp_cursor_y (w : editor.Window)
    (b : editor.Buffer) (m : Mode) (offset : IVec2) :
    (w.move_by_preclamp b m offset).cursor.y = w.cursor.y := by
  unfold editor.Window.move_by_preclamp
  cases w.get_cursor_max_x b m with
  | none => rfl
  | some max_x =>
    simp only []
    split_ifs <;> rfl

/-- Every single movement call keeps the stored cursor line inside a
non-empty buffer. -/
theorem editor.Window.applyMove_cursor_y_lt (b : editor.Buffer) (m : Mode)
    (w : editor.Window) (op : editor.MoveOp)
    (hne : 0 < b.get_line_count) (hy : w.cursor.y < b.get_line_count) :
    (w.applyMove b m op).cursor.y < b.get_line_count := by
  cases op with
  | move_by offset =>
    show (w.move_by b m offset).cursor.y < b.get_line_count
    unfold editor.Window.move_by
    dsimp only
    split
    next pos hadd =>
      split_ifs with hp
      · rw [editor.Window.move_by_preclamp_cursor_y]
        exact hy
      · rw [editor.Window.sync_scroll_cursor]
        simp only []
        omega
    next hadd =>
      rw [editor.Window.move_by_preclamp_cursor_y]
      exact hy
  | move_to_x x =>
    show (w.move_to_x b m x).cursor.y < b.get_line_count
    unfold editor.Window.move_to_x
    dsimp only
    split_ifs with h
    · exact hy
    · rw [editor.Window.sync_scroll_cursor]
      split
      next max_x hmax =>
        split_ifs <;> exact hy
      next hmax => exact hy
  | move_to_y y =>
    show (w.move_to_y b y).cursor.y < b.get_line_count
    unfold editor.Window.move_to_y
    dsimp only
    split_ifs with h
    · exact hy
    · rw [editor.Window.sync_scroll_cursor]
      split
      next line hline =>
        split_ifs <;> (simp only []) <;> omega
      next hline =>
        simp only []
        omega
  | move_to_line_start =>
    show w.move_to_line_start.cursor.y < b.get_line_count
    unfold editor.Window.move_to_line_start
    rw [editor.Window.sync_scroll_cursor]
    exact hy
  | move_to_line_end =>
    show (w.move_to_line_end b).cursor.y < b.get_line_count
    unfold editor.Window.move_to_line_end
    split_ifs with h
    · exact hy
    · rw [editor.Window.sync_scroll_cursor]
      exact hy
  | move_to_buffer_start =>
    show w.move_to_buffer_start.cursor.y < b.get_line_count
    unfold editor.Window.move_to_buffer_start
    rw [editor.Window.sync_scroll_cursor]
    exact hne
  | move_to_buffer_end =>
    show (w.move_to_buffer_end b).cursor.y < b.get_line_count
    unfold editor.Window.move_to_buffer_end
    dsimp only
    rw [editor.Window.sync_scroll_cursor]
    split_ifs
    split
    next line hline =>
      simp only []
      omega
    next hline => exact hy

/-- Any finite sequence of movement calls keeps the stored cursor line
inside a non-empty buffer. -/
theorem editor.Window.applyMoves_cursor_y_lt (b : editor.Buffer) (m : Mode)
    (ops : List editor.MoveOp) :
    ∀ w : editor.Window, 0 < b.get_line_count →
      w.cursor.y < b.get_line_count →
      (w.applyMoves b m ops).cursor.y < b.get_line_count := by
  induction ops with
  | nil => intro w _ hy; exact hy
  | cons op ops ih =>
    intro w hne hy
    exact ih (w.applyMove b m op) hne
      (editor.Window.applyMove_cursor_y_lt b m w op hne hy)

/-- Whenever the stored cursor line is in range, the max column exists
and the effective (render) cursor column never exceeds it. -/
theorem editor.Window.render_cursor_le_max (b : editor.Buffer) (m : Mode)
    (w : editor.Window) (hy : w.cursor.y < b.get_line_count) :
    ∃ mx, w.get_cursor_max_x b m = some mx
      ∧ (w.get_render_cursor b m).x ≤ mx := by
  obtain ⟨line, hline⟩ : ∃ line, b.content.get? w.cursor.y = some line := by
    cases hh : b.content.get? w.cursor.y with
    | none =>
      have := List.get?_eq_none.mp hh
      exact absurd hy (by simpa [editor.Buffer.get_line_count] using by omega)
    | some line => exact ⟨line, rfl⟩
  have hlen : b.get_line_length w.cursor.y = some line.length := by
    unfold editor.Buffer.get_line_length
    rw [hline]
    rfl
  have hmax : ∃ mx, w.get_cursor_max_x b m = some mx := by
    unfold editor.Window.get_cursor_max_x
    rw [hlen]
    exact ⟨_, rfl⟩
  obtain ⟨mx, hmx⟩ := hmax
  refine ⟨mx, hmx, ?_⟩
  unfold editor.Window.get_render_cursor
  rw [hmx]
  show (if mx < w.cursor.x then (⟨mx, w.cursor.y⟩ : UVec2) else w.cursor).x ≤ mx
  split_ifs with hlt
  · exact le_refl mx
  · omega

/-- Claim C3 (counterexample): one move_by call of (5, 0) from the
origin of the one-line buffer abc in Normal mode stores cursor column 5,
strictly above the mode-appropriate max column 2, so the claimed
invariant on the STORED cursor column is false. -/
theorem cursor_clamping_counterexample :
    (windowC3.applyMoves abcBuffer Mode.Normal
        [editor.MoveOp.move_by ⟨5, 0⟩]).get_cursor_max_x abcBuffer Mode.Normal
      = some 2
    ∧ ¬ ((windowC3.applyMoves abcBuffer Mode.Normal
        [editor.MoveOp.move_by ⟨5, 0⟩]).cursor.x ≤ 2) := by
  constructor
  · rfl
  · decide

/-- Claim C3 (amended): after any finite sequence of move_by, move_to_x,
move_to_y, move_to_line_start, move_to_line_end, move_to_buffer_start,
move_to_buffer_end calls on a window over a non-empty buffer, the stored
cursor line stays in [0, line_count), and the EFFECTIVE cursor (the
render cursor, which clamps at read time) has column at most the
mode-appropriate max column; the stored column itself may exceed it. -/
theorem cursor_clamping_amended (b : editor.Buffer) (m : Mode)
    (w : editor.Window) (ops : List editor.MoveOp)
    (hne : 0 < b.get_line_count) (hy : w.cursor.y < b.get_line_count) :
    (w.applyMoves b m ops).cursor.y < b.get_line_count
    ∧ ∃ mx, (w.applyMoves b m ops).get_cursor_max_x b m = some mx
        ∧ ((w.applyMoves b m ops).get_render_cursor b m).x ≤ mx := by
  have h2 := editor.Window.applyMoves_cursor_y_lt b m ops w hne hy
  exact ⟨h2, editor.Window.render_cursor_le_max b m _ h2⟩

/-- Witness for the amended claim C3 at a concrete input. -/
theorem cursor_clamping_amended_witness :
    (windowC3.applyMoves abcBuffer Mode.Normal
        [editor.MoveOp.move_by ⟨5, 0⟩,
          editor.MoveOp.move_to_line_end]).cursor.y
      < abcBuffer.get_line_count
    ∧ ∃ mx, (windowC3.applyMoves abcBuffer Mode.Normal
          [editor.MoveOp.move_by ⟨5, 0⟩,
            editor.MoveOp.move_to_line_end]).get_cursor_max_x abcBuffer
          Mode.Normal
        = some mx
      ∧ ((windowC3.applyMoves abcBuffer Mode.Normal
          [editor.MoveOp.move_by ⟨5, 0⟩,
            editor.MoveOp.move_to_line_end]).get_render_cursor abcBuffer
          Mode.Normal).x ≤ mx :=
  cursor_clamping_amended abcBuffer Mode.Normal windowC3
    [editor.MoveOp.move_by ⟨5, 0⟩, editor.MoveOp.move_to_line_end]
    (by decide) (by decide)

/-- Claim C4 (counterexample): with stored cursor (5, 0) over the
one-line buffer abc in Normal mode, the offset (1, 1) leads to the
out-of-range line 1, so the move is rejected — yet the stored column has
been pre-clamped from 5 to 2, observably changing the cursor. -/
theorem move_by_reject_counterexample :
    (windowC4.move_by_preclamp abcBuffer Mode.Normal
        ⟨1, 1⟩).cursor.checked_add ⟨1, 1⟩ = some ⟨3, 1⟩
    ∧ abcBuffer.get_line_count ≤ 1
    ∧ windowC4.cursor = ⟨5, 0⟩
    ∧ (windowC4.move_by abcBuffer Mode.Normal ⟨1, 1⟩).cursor = ⟨2, 0⟩ := by
  refine ⟨by decide, by decide, rfl, by decide⟩

/-- Claim C4 (amended): when the code rejection test holds — the checked
addition of the offset to the PRE-CLAMPED cursor fails or lands on an
out-of-range line — move_by returns exactly the pre-clamped window: the
line and the scroll are untouched, but with a horizontal delta the
stored column may observably have been clamped down to the max column. -/
theorem move_by_reject_amended (b : editor.Buffer) (m : Mode)
    (w : editor.Window) (offset : IVec2)
    (hrej : ((w.move_by_preclamp b m offset).cursor.checked_add offset).all
        (fun pos => decide (b.get_line_count ≤ pos.y)) = true) :
    w.move_by b m offset = w.move_by_preclamp b m offset := by
  unfold editor.Window.move_by
  dsimp only
  cases hadd : (w.move_by_preclamp b m offset).cursor.checked_add offset with
  | none => rfl
  | some pos =>
    rw [hadd] at hrej
    simp only [Option.all_some, decide_eq_true_eq] at hrej
    simp only []
    rw [if_pos hrej]

/-- Witness for the amended claim C4 at a concrete input. -/
theorem move_by_reject_amended_witness :
    windowC4.move_by abcBuffer Mode.Normal ⟨1, 1⟩
      = windowC4.move_by_preclamp abcBuffer Mode.Normal ⟨1, 1⟩ :=
  move_by_reject_amended abcBuffer Mode.Normal windowC4 ⟨1, 1⟩ (by decide)

/-- The start of the line holding character i is at most i. -/
theorem content.lineToChar_charToLine_le (s : List Char) (i : Nat) :
    content.lineToChar s (content.charToLine s i) ≤ i := by
  induction s generalizing i with
  | nil =>
    cases i <;> simp [content.charToLine, content.lineToChar]
  | cons c s ih =>
    cases i with
    | zero => simp [content.charToLine, content.lineToChar]
    | succ i =>
      by_cases hc : c = '\n'
      · simp only [content.charToLine, content.lineToChar, hc, if_pos]
        have := ih i
        omega
      · simp only [content.charToLine, if_neg hc]
        cases h : content.charToLine s i with
        | zero => simp [content.lineToChar]
        | succ l =>
          simp only [content.lineToChar, if_neg hc]
          have := ih i
          rw [h] at this
          omega

/-- The character at offset x inside line y lies on line y. -/
theorem content.charToLine_lineToChar_add (s : List Char) :
    ∀ y x : Nat, y < content.lenLines s → x < content.lineLenChars s y →
      content.charToLine s (content.lineToChar s y + x) = y := by
  induction s with
  | nil =>
    intro y x _ hx
    simp [content.lineLenChars] at hx
  | cons c s ih =>
    intro y x hy hx
    cases y with
    | zero =>
      simp only [content.lineToChar, Nat.zero_add]
      cases x with
      | zero => simp [content.charToLine]
      | succ x =>
        by_cases hc : c = '\n'
        · simp [content.lineLenChars, hc] at hx
        · simp only [content.lineLenChars, if_neg hc] at hx
          simp only [content.charToLine, if_neg hc]
          have h0 : content.lineToChar s 0 = 0 := by
            simp [content.lineToChar]
          have hy0 : 0 < content.lenLines s := by
            simp [content.lenLines]
          have := ih 0 x hy0 (by omega)
          rw [h0] at this
          simpa using this
    | succ l =>
      by_cases hc : c = '\n'
      · simp only [content.lineToChar, content.lineLenChars, if_pos hc] at hx ⊢
        have harr : content.lineToChar s l + 1 + x
            = content.lineToChar s l + x + 1 := by omega
        rw [harr]
        simp only [content.charToLine, if_pos hc]
        have hy2 : l < content.lenLines s := by
          simp only [content.lenLines, List.count_cons] at hy
          simp only [content.lenLines]
          simp [hc] at hy
          omega
        have := ih l x hy2 hx
        omega
      · simp only [content.lineToChar, content.lineLenChars, if_neg hc] at hx ⊢
        have harr : content.lineToChar s (l + 1) + 1 + x
            = content.lineToChar s (l + 1) + x + 1 := by omega
        rw [harr]
        simp only [content.charToLine, if_neg hc]
        have hy2 : l + 1 < content.lenLines s := by
          simp only [content.lenLines, List.count_cons] at hy
          simp only [content.lenLines]
          simp [hc] at hy
          omega
        exact ih (l + 1) x hy2 hx

/-- Claim C6: the two address conversions of BufferContent are mutually
inverse: for every valid character offset i of the document,
vec2_to_index(index_to_vec2(i)) = i, and for every in-bounds
(column, line) pair (line below the line count, column below that line
character length), index_to_vec2(vec2_to_index(v)) = v. -/
theorem inverse_addressing (b : content.BufferContent) :
    (∀ i, i ≤ b.buf.length → b.vec2_to_index (b.index_to_vec2 i) = i)
    ∧ (∀ v : UVec2, v.y < b.get_line_count →
        v.x < b.get_line_length v.y →
        b.index_to_vec2 (b.vec2_to_index v) = v) := by
  constructor
  · intro i _
    unfold content.BufferContent.vec2_to_index
      content.BufferContent.index_to_vec2
    dsimp only
    exact Nat.add_sub_cancel' (content.lineToChar_charToLine_le b.buf i)
  · intro v hy hx
    obtain ⟨vx, vy⟩ := v
    unfold content.BufferContent.vec2_to_index
      content.BufferContent.index_to_vec2
    dsimp only
    rw [content.charToLine_lineToChar_add b.buf vy vx hy hx]
    simp [Nat.add_sub_cancel_left]

/-- Witness for claim C6 on the document ab newline cd, offset 4 and
position (1, 1). -/
theorem inverse_addressing_witness :
    ropeFixture.vec2_to_index (ropeFixture.index_to_vec2 4) = 4
    ∧ ropeFixture.index_to_vec2 (ropeFixture.vec2_to_index ⟨1, 1⟩)
      = ⟨1, 1⟩ :=
  ⟨(inverse_addressing ropeFixture).1 4 (by decide),
    (inverse_addressing ropeFixture).2 ⟨1, 1⟩ (by decide) (by decide)⟩

/-- A missing buffer handle never resolves. -/
theorem editor.resolveBuffer_eq_none (st : editor.EditorState)
    (b : Option Nat) (h : editor.bufMissing st b = true) :
    st.resolveBuffer b = none := by
  cases b with
  | some id =>
    simp only [editor.bufMissing, Option.isNone_iff_eq_none] at h
    simp [editor.EditorState.resolveBuffer, h]
  | none =>
    simp only [editor.bufMissing, Option.isNone_iff_eq_none] at h
    simp [editor.EditorState.resolveBuffer, h]

/-- A missing window handle never resolves. -/
theorem editor.resolveWindow_eq_none (st : editor.EditorState)
    (w : Option Nat) (h : editor.winMissing st w = true) :
    st.resolveWindow w = none := by
  cases w with
  | some id =>
    simp only [editor.winMissing, Option.isNone_iff_eq_none] at h
    simp [editor.EditorState.resolveWindow, h]
  | none =>
    simp only [editor.winMissing, Option.isNone_iff_eq_none] at h
    simp [editor.EditorState.resolveWindow, h]

/-- Claim C7: whenever a request names a buffer or window handle that is
not in the registries, or omits the handle while no active window
exists, the dispatcher returns an absent result (the Rust None, or
Some(ApiResponse::None)) and leaves the whole editor state unchanged. -/
theorem dispatcher_not_found (st : editor.EditorState)
    (req : editor.ApiRequest) (h : editor.refsMissing st req = true) :
    ∃ r, st.process req = some (st, r)
      ∧ (r = none ∨ r = some editor.ApiResponse.None) := by
  cases req with
  | ChangeMode m => simp [editor.refsMissing] at h
  | OpenFile p => simp [editor.refsMissing] at h
  | SaveBuffer b p =>
    refine ⟨some editor.ApiResponse.None, ?_, Or.inr rfl⟩
    simp [editor.EditorState.process,
      editor.resolveBuffer_eq_none st b (by simpa [editor.refsMissing] using h)]
  | GetLineCount b =>
    refine ⟨some editor.ApiResponse.None, ?_, Or.inr rfl⟩
    simp [editor.EditorState.process,
      editor.resolveBuffer_eq_none st b (by simpa [editor.refsMissing] using h)]
  | GetLineLength b y =>
    refine ⟨some editor.ApiResponse.None, ?_, Or.inr rfl⟩
    simp [editor.EditorState.process,
      editor.resolveBuffer_eq_none st b (by simpa [editor.refsMissing] using h)]
  | GetChar b pos =>
    refine ⟨some editor.ApiResponse.None, ?_, Or.inr rfl⟩
    simp [editor.EditorState.process,
      editor.resolveBuffer_eq_none st b (by simpa [editor.refsMissing] using h)]
  | GetLine b y =>
    refine ⟨some editor.ApiResponse.None, ?_, Or.inr rfl⟩
    simp [editor.EditorState.process,
      editor.resolveBuffer_eq_none st b (by simpa [editor.refsMissing] using h)]
  | GetAllLines b =>
    refine ⟨some editor.ApiResponse.None, ?_, Or.inr rfl⟩
    simp [editor.EditorState.process,
      editor.resolveBuffer_eq_none st b (by simpa [editor.refsMissing] using h)]
  | GetContent b =>
    refine ⟨some editor.ApiResponse.None, ?_, Or.inr rfl⟩
    simp [editor.EditorState.process,
      editor.resolveBuffer_eq_none st b (by simpa [editor.refsMissing] using h)]
  | InsertChar b pos ch =>
    refine ⟨some editor.ApiResponse.None, ?_, Or.inr rfl⟩
    simp [editor.EditorState.process,
      editor.resolveBuffer_eq_none st b (by simpa [editor.refsMissing] using h)]
  | InsertLine b y line =>
    refine ⟨some editor.ApiResponse.None, ?_, Or.inr rfl⟩
    simp [editor.EditorState.process,
      editor.resolveBuffer_eq_none st b (by simpa [editor.refsMissing] using h)]
  | ReplaceChar b pos ch =>
    refine ⟨some editor.ApiResponse.None, ?_, Or.inr rfl⟩
    simp [editor.EditorState.process,
      editor.resolveBuffer_eq_none st b (by simpa [editor.refsMissing] using h)]
  | ReplaceLine b y line =>
    refine ⟨some editor.ApiResponse.None, ?_, Or.inr rfl⟩
    simp [editor.EditorState.process,
      editor.resolveBuffer_eq_none st b (by simpa [editor.refsMissing] using h)]
  | ReplaceAllLines b lines =>
    refine ⟨some editor.ApiResponse.None, ?_, Or.inr rfl⟩
    simp [editor.EditorState.process,
      editor.resolveBuffer_eq_none st b (by simpa [editor.refsMissing] using h)]
  | ReplaceContent b text =>
    refine ⟨some editor.ApiResponse.None, ?_, Or.inr rfl⟩
    simp [editor.EditorState.process,
      editor.resolveBuffer_eq_none st b (by simpa [editor.refsMissing] using h)]
  | RemoveChar b pos =>
    refine ⟨some editor.ApiResponse.None, ?_, Or.inr rfl⟩
    simp [editor.EditorState.process,
      editor.resolveBuffer_eq_none st b (by simpa [editor.refsMissing] using h)]
  | RemoveLine b y =>
    refine ⟨some editor.ApiResponse.None, ?_, Or.inr rfl⟩
    simp [editor.EditorState.process,
      editor.resolveBuffer_eq_none st b (by simpa [editor.refsMissing] using h)]
  | SplitLine b pos =>
    refine ⟨some editor.ApiResponse.None, ?_, Or.inr rfl⟩
    simp [editor.EditorState.process,
      editor.resolveBuffer_eq_none st b (by simpa [editor.refsMissing] using h)]
  | JoinLines b y =>
    refine ⟨some editor.ApiResponse.None, ?_, Or.inr rfl⟩
    simp [editor.EditorState.process,
      editor.resolveBuffer_eq_none st b (by simpa [editor.refsMissing] using h)]
  | GetPosition w =>
    refine ⟨some editor.ApiResponse.None, ?_, Or.inr rfl⟩
    simp [editor.EditorState.process,
      editor.resolveWindow_eq_none st w (by simpa [editor.refsMissing] using h)]
  | GetVisualStart w => exact ⟨none, rfl, Or.inl rfl⟩
  | MoveBy w offset =>
    refine ⟨some editor.ApiResponse.None, ?_, Or.inr rfl⟩
    simp [editor.EditorState.process,
      editor.resolveWindow_eq_none st w (by simpa [editor.refsMissing] using h)]
  | MoveToX w pos =>
    refine ⟨some editor.ApiResponse.None, ?_, Or.inr rfl⟩
    simp [editor.EditorState.process,
      editor.resolveWindow_eq_none st w (by simpa [editor.refsMissing] using h)]
  | MoveToY w pos =>
    refine ⟨some editor.ApiResponse.None, ?_, Or.inr rfl⟩
    simp [editor.EditorState.process,
      editor.resolveWindow_eq_none st w (by simpa [editor.refsMissing] using h)]

/-- Witness for claim C7: a request naming buffer handle 5 against the
empty registries. -/
theorem dispatcher_not_found_witness :
    ∃ r, stateEmpty.process (editor.ApiRequest.GetLineCount (some 5))
        = some (stateEmpty, r)
      ∧ (r = none ∨ r = some editor.ApiResponse.None) :=
  dispatcher_not_found stateEmpty (editor.ApiRequest.GetLineCount (some 5))
    (by decide)
